import Mathlib

/-!
Verification of the feature encoder and predictor of `src/app.py`
(single-file Streamlit income-prediction app).

The encoder builds a one-row pandas DataFrame of zeros over the model's
feature names, overwrites numeric columns, and activates one-hot columns by
string concatenation.  We model the single-row DataFrame as a list of column
names together with a total valuation (absent columns read as 0, matching
the all-zeros initialization), and pandas column assignment `X[c] = v` as
set-or-append.
-/

/-- One-row pandas DataFrame: ordered column names plus the value of each
column in the single row.  Columns not in `cols` read as 0, which coincides
with the all-zeros initialization of `pd.DataFrame(0, index=[0], columns=...)`
(src/app.py line 80). -/
structure DataFrame where
  cols : List String
  val : String → Nat

/-- `pd.DataFrame(0, index=[0], columns=schema)`: one row of zeros. -/
def DataFrame.zeros (schema : List String) : DataFrame :=
  ⟨schema, fun _ => 0⟩

/-- Pandas column assignment `X[c] = v` on a one-row frame: overwrite the
column if present, otherwise append a new column named `c` at the end. -/
def DataFrame.setCol (X : DataFrame) (c : String) (v : Nat) : DataFrame :=
  ⟨if c ∈ X.cols then X.cols else X.cols ++ [c],
   fun d => if d = c then v else X.val d⟩

/-- EDUCATION_MAP of src/app.py lines 31-34: education label to ordinal. -/
def EDUCATION_MAP : List (String × Nat) :=
  [("Tidak Sekolah", 1), ("SD", 3), ("SMP", 5), ("SMA", 9),
   ("Kuliah/Diploma", 10), ("Sarjana (S1)", 13), ("Magister (S2)", 14),
   ("Pendidikan Profesi", 15), ("Doktor (S3)", 16)]

/-- OCCUPATION_MAP of src/app.py lines 36-40. -/
def OCCUPATION_MAP : List (String × String) :=
  [("Manajerial / Eksekutif", "Exec-managerial"),
   ("Profesional / Spesialis", "Prof-specialty"),
   ("Teknisi / IT Support", "Tech-support"),
   ("Penjualan", "Sales"),
   ("Layanan Umum", "Other-service"),
   ("Pekerja Kasar", "Handlers-cleaners"),
   ("Lainnya", "Unknown")]

/-- MARITAL_MAP of src/app.py line 42. -/
def MARITAL_MAP : List (String × String) :=
  [("Belum Menikah", "Never-married"), ("Menikah", "Married-civ-spouse"),
   ("Cerai/Pisah", "Divorced")]

/-- RELATIONSHIP_MAP of src/app.py line 43. -/
def RELATIONSHIP_MAP : List (String × String) :=
  [("Suami", "Husband"), ("Istri", "Wife"), ("Anak", "Own-child"),
   ("Lainnya", "Unmarried")]

/-- The raw attribute values read from the form widgets
(src/app.py lines 54-71). -/
structure ProfileInput where
  age : Nat
  education_label : String
  gender : String
  occupation_label : String
  marital_label : String
  relationship_label : String
  hours : Nat
  capital_gain : Nat
  capital_loss : Nat

/-- One-hot activation helper `act` of src/app.py lines 88-90: set
`"{Prefix}_{Value}"` to 1 only when that column already exists. -/
def act (X : DataFrame) (pre v : String) : DataFrame :=
  let col := pre ++ "_" ++ v
  if col ∈ X.cols then X.setCol col 1 else X

/-- The body of `build_input` (src/app.py lines 78-96) once the four
dictionary lookups have succeeded, with the writes in source order:
the five numeric assignments (lines 81-85), the three `act` calls
(lines 92-94) and the unconditional gender write (line 95). -/
def build_core (schema : List String) (p : ProfileInput)
    (eduNum : Nat) (occ mar rel : String) : DataFrame :=
  let X := DataFrame.zeros schema
  let X := X.setCol "Age" p.age
  let X := X.setCol "EducationNum" eduNum
  let X := X.setCol "Hours per Week" p.hours
  let X := X.setCol "Capital Gain" p.capital_gain
  let X := X.setCol "capital loss" p.capital_loss
  let X := act X "Occupation" occ
  let X := act X "Marital Status" mar
  let X := act X "Relationship" rel
  if p.gender = "Male" then X.setCol "Gender_Male" 1 else X

/-- `build_input` of src/app.py lines 78-96.  Python dictionary subscripts
`EDUCATION_MAP[...]`, `OCCUPATION_MAP[...]`, `MARITAL_MAP[...]`,
`RELATIONSHIP_MAP[...]` raise `KeyError` on a missing key, modelled as
`none`; the lookups are pure, so hoisting them in source order (lines 82,
92, 93, 94) ahead of the writes preserves the behaviour. -/
def build_input (schema : List String) (p : ProfileInput) : Option DataFrame := do
  let eduNum ← EDUCATION_MAP.lookup p.education_label
  let occ ← OCCUPATION_MAP.lookup p.occupation_label
  let mar ← MARITAL_MAP.lookup p.marital_label
  let rel ← RELATIONSHIP_MAP.lookup p.relationship_label
  pure (build_core schema p eduNum occ mar rel)

/-- Result of one press of the prediction button: predicted class, the
displayed confidence, and the SHAP contribution vector. -/
structure PredictionDisplay where
  pred : Nat
  conf : Rat
  shap : List Rat

/-- The prediction button handler, src/app.py lines 100-131.  The classifier
call `model.predict_proba(X_input)[0]` yields the pair
`(prob_0, prob_1)` and the code takes its second entry (line 101); class 1
is assigned when that probability is strictly above 0.5 (line 102); when the
predicted class is 0 the displayed probability is flipped to `1 - prob`
(line 115); the SHAP values are computed afterwards (line 121).  The
classifier and explainer are external fallible collaborators, modelled as
`Except`-valued parameters.  The handler contains no `try`/`except`. -/
def runPrediction (predictProba : DataFrame → Except String (Rat × Rat))
    (shapValues : DataFrame → Except String (List Rat))
    (X : DataFrame) : Except String PredictionDisplay := do
  let probs ← predictProba X
  let prob := probs.2
  let pred : Nat := if prob > 1/2 then 1 else 0
  let conf := if pred = 1 then prob else 1 - prob
  let sv ← shapValues X
  pure ⟨pred, conf, sv⟩

/-! ### Structural lemmas about the DataFrame model -/

lemma setCol_val (X : DataFrame) (c : String) (v : Nat) (d : String) :
    (X.setCol c v).val d = if d = c then v else X.val d := rfl

lemma setCol_cols_of_mem {X : DataFrame} {c : String} (v : Nat) (h : c ∈ X.cols) :
    (X.setCol c v).cols = X.cols := by
  simp [DataFrame.setCol, h]

lemma self_mem_setCol_cols (X : DataFrame) (c : String) (v : Nat) :
    c ∈ (X.setCol c v).cols := by
  unfold DataFrame.setCol
  by_cases h : c ∈ X.cols
  · simp only [if_pos h]; exact h
  · simp [h]

lemma mem_setCol_iff {d c : String} (X : DataFrame) (v : Nat) (h : d ≠ c) :
    d ∈ (X.setCol c v).cols ↔ d ∈ X.cols := by
  unfold DataFrame.setCol
  by_cases hc : c ∈ X.cols
  · simp [hc]
  · simp [hc, List.mem_append, h]

lemma act_cols (X : DataFrame) (pre v : String) : (act X pre v).cols = X.cols := by
  unfold act
  by_cases h : (pre ++ "_" ++ v) ∈ X.cols
  · simpa [h] using setCol_cols_of_mem 1 h
  · simp [h]

lemma act_val_ne (X : DataFrame) {d pre v : String}
    (h : d ≠ pre ++ "_" ++ v) : (act X pre v).val d = X.val d := by
  unfold act
  by_cases hc : (pre ++ "_" ++ v) ∈ X.cols
  · simp [hc, setCol_val, h]
  · simp [hc]

lemma act_val_self (X : DataFrame) (pre v : String) :
    (act X pre v).val (pre ++ "_" ++ v) =
      if (pre ++ "_" ++ v) ∈ X.cols then 1 else X.val (pre ++ "_" ++ v) := by
  unfold act
  by_cases hc : (pre ++ "_" ++ v) ∈ X.cols
  · simp [hc, setCol_val]
  · simp [hc]

/-! ### String lemmas: distinct first characters give distinct column names -/

lemma head_of_append {p : String} (s : String) {c : Char}
    (hp : p.data.head? = some c) : (p ++ s).data.head? = some c := by
  have hd : (p ++ s).data = p.data ++ s.data := rfl
  rw [hd]
  cases h : p.data with
  | nil => rw [h] at hp; exact absurd hp (by simp)
  | cons x xs =>
      rw [h] at hp
      simpa using hp

lemma ne_of_head {a b : String} {c d : Char} (ha : a.data.head? = some c)
    (hb : b.data.head? = some d) (hcd : c ≠ d) : a ≠ b := by
  intro h
  rw [h, hb] at ha
  exact hcd (Option.some.inj ha).symm

lemma actCol_ne_lit (pre v t : String) (c d : Char)
    (h1 : pre.data.head? = some c) (h2 : t.data.head? = some d) (hcd : c ≠ d) :
    pre ++ "_" ++ v ≠ t :=
  ne_of_head (head_of_append v (head_of_append "_" h1)) h2 hcd

lemma actCol_ne_actCol (p1 v1 p2 v2 : String) (c d : Char)
    (h1 : p1.data.head? = some c) (h2 : p2.data.head? = some d) (hcd : c ≠ d) :
    p1 ++ "_" ++ v1 ≠ p2 ++ "_" ++ v2 :=
  ne_of_head (head_of_append v1 (head_of_append "_" h1))
    (head_of_append v2 (head_of_append "_" h2)) hcd

lemma strcat_left_cancel {a b c : String} (h : a ++ b = a ++ c) : b = c := by
  have hd : a.data ++ b.data = a.data ++ c.data := congrArg String.data h
  exact String.ext (List.append_cancel_left hd)

lemma gender_col_eq_iff {v : String} (h : "Gender" ++ "_" ++ v = "Gender_Male") :
    v = "Male" :=
  strcat_left_cancel (a := "Gender" ++ "_") (h.trans (by decide))

/-! ### Value and column-set computation for the encoder -/

lemma setCol_cols_eq {X : DataFrame} {c : String} (v : Nat) {schema : List String}
    (hX : X.cols = schema) (h : c ∈ schema) : (X.setCol c v).cols = schema := by
  subst hX
  exact setCol_cols_of_mem v h

/-- Value of any column other than the three activated one-hot columns and
the gender column: it is determined by the five numeric writes alone. -/
lemma build_core_val (schema : List String) (p : ProfileInput)
    (e : Nat) (o m r : String) (d : String)
    (h1 : d ≠ "Occupation" ++ "_" ++ o)
    (h2 : d ≠ "Marital Status" ++ "_" ++ m)
    (h3 : d ≠ "Relationship" ++ "_" ++ r)
    (h4 : p.gender = "Male" → d ≠ "Gender_Male") :
    (build_core schema p e o m r).val d =
      if d = "capital loss" then p.capital_loss
      else if d = "Capital Gain" then p.capital_gain
      else if d = "Hours per Week" then p.hours
      else if d = "EducationNum" then e
      else if d = "Age" then p.age
      else 0 := by
  by_cases hg : p.gender = "Male"
  · simp only [build_core, if_pos hg]
    rw [setCol_val, if_neg (h4 hg), act_val_ne _ h3, act_val_ne _ h2, act_val_ne _ h1]
    simp only [setCol_val]
    rfl
  · simp only [build_core, if_neg hg]
    rw [act_val_ne _ h3, act_val_ne _ h2, act_val_ne _ h1]
    simp only [setCol_val]
    rfl

lemma numeric_chain_mem (schema : List String) (p : ProfileInput) (e : Nat)
    (d : String)
    (n1 : d ≠ "Age") (n2 : d ≠ "EducationNum") (n3 : d ≠ "Hours per Week")
    (n4 : d ≠ "Capital Gain") (n5 : d ≠ "capital loss") :
    d ∈ ((((((DataFrame.zeros schema).setCol "Age" p.age).setCol
      "EducationNum" e).setCol "Hours per Week" p.hours).setCol
      "Capital Gain" p.capital_gain).setCol
      "capital loss" p.capital_loss).cols ↔ d ∈ schema := by
  rw [mem_setCol_iff _ _ n5, mem_setCol_iff _ _ n4, mem_setCol_iff _ _ n3,
      mem_setCol_iff _ _ n2, mem_setCol_iff _ _ n1]
  exact Iff.rfl

/-- When the schema contains every unconditionally written column name, the
column set of the encoded frame is exactly the schema. -/
lemma build_core_cols (schema : List String) (p : ProfileInput)
    (e : Nat) (o m r : String)
    (hA : "Age" ∈ schema) (hEd : "EducationNum" ∈ schema)
    (hH : "Hours per Week" ∈ schema) (hC : "Capital Gain" ∈ schema)
    (hc : "capital loss" ∈ schema)
    (hG : p.gender = "Male" → "Gender_Male" ∈ schema) :
    (build_core schema p e o m r).cols = schema := by
  have c1 : ((DataFrame.zeros schema).setCol "Age" p.age).cols = schema :=
    setCol_cols_eq p.age rfl hA
  have c2 := setCol_cols_eq (c := "EducationNum") e c1 hEd
  have c3 := setCol_cols_eq (c := "Hours per Week") p.hours c2 hH
  have c4 := setCol_cols_eq (c := "Capital Gain") p.capital_gain c3 hC
  have c5 := setCol_cols_eq (c := "capital loss") p.capital_loss c4 hc
  simp only [build_core]
  by_cases hg : p.gender = "Male"
  · rw [if_pos hg]
    refine setCol_cols_eq 1 ?_ (hG hg)
    rw [act_cols, act_cols, act_cols]
    exact c5
  · rw [if_neg hg, act_cols, act_cols, act_cols]
    exact c5

lemma actCol_ne_numeric (pre v : String) (c : Char) (hp : pre.data.head? = some c)
    (hA : c ≠ 'A') (hE : c ≠ 'E') (hH : c ≠ 'H') (hC : c ≠ 'C') (hcl : c ≠ 'c') :
    pre ++ "_" ++ v ≠ "Age" ∧ pre ++ "_" ++ v ≠ "EducationNum" ∧
    pre ++ "_" ++ v ≠ "Hours per Week" ∧ pre ++ "_" ++ v ≠ "Capital Gain" ∧
    pre ++ "_" ++ v ≠ "capital loss" :=
  ⟨actCol_ne_lit _ _ _ c 'A' hp (by decide) hA,
   actCol_ne_lit _ _ _ c 'E' hp (by decide) hE,
   actCol_ne_lit _ _ _ c 'H' hp (by decide) hH,
   actCol_ne_lit _ _ _ c 'C' hp (by decide) hC,
   actCol_ne_lit _ _ _ c 'c' hp (by decide) hcl⟩

/-- The activated occupation column reads 1 exactly when its name is in the
schema, and 0 otherwise: the membership test of `act` is decided against the
schema because the five numeric writes only ever append their own names. -/
lemma build_core_val_occ (schema : List String) (p : ProfileInput)
    (e : Nat) (o m r : String) :
    (build_core schema p e o m r).val ("Occupation" ++ "_" ++ o) =
      if ("Occupation" ++ "_" ++ o) ∈ schema then 1 else 0 := by
  obtain ⟨n1, n2, n3, n4, n5⟩ := actCol_ne_numeric "Occupation" o 'O' (by decide)
    (by decide) (by decide) (by decide) (by decide) (by decide)
  have hMc : "Occupation" ++ "_" ++ o ≠ "Marital Status" ++ "_" ++ m :=
    actCol_ne_actCol _ _ _ _ 'O' 'M' (by decide) (by decide) (by decide)
  have hRc : "Occupation" ++ "_" ++ o ≠ "Relationship" ++ "_" ++ r :=
    actCol_ne_actCol _ _ _ _ 'O' 'R' (by decide) (by decide) (by decide)
  have hGc : "Occupation" ++ "_" ++ o ≠ "Gender_Male" :=
    actCol_ne_lit _ _ _ 'O' 'G' (by decide) (by decide) (by decide)
  have m1 : "Occupation_" ++ o ≠ "Age" := n1
  have m2 : "Occupation_" ++ o ≠ "EducationNum" := n2
  have m3 : "Occupation_" ++ o ≠ "Hours per Week" := n3
  have m4 : "Occupation_" ++ o ≠ "Capital Gain" := n4
  have m5 : "Occupation_" ++ o ≠ "capital loss" := n5
  by_cases hg : p.gender = "Male"
  · simp only [build_core, if_pos hg]
    rw [setCol_val, if_neg hGc, act_val_ne _ hRc, act_val_ne _ hMc, act_val_self]
    simp only [numeric_chain_mem schema p e ("Occupation" ++ "_" ++ o) n1 n2 n3 n4 n5]
    by_cases hs : ("Occupation_" ++ o) ∈ schema
    · simp [hs]
    · simp [hs, setCol_val, m1, m2, m3, m4, m5, DataFrame.zeros]
  · simp only [build_core, if_neg hg]
    rw [act_val_ne _ hRc, act_val_ne _ hMc, act_val_self]
    simp only [numeric_chain_mem schema p e ("Occupation" ++ "_" ++ o) n1 n2 n3 n4 n5]
    by_cases hs : ("Occupation_" ++ o) ∈ schema
    · simp [hs]
    · simp [hs, setCol_val, m1, m2, m3, m4, m5, DataFrame.zeros]

/-- Same as `build_core_val_occ`, for the marital-status column. -/
lemma build_core_val_mar (schema : List String) (p : ProfileInput)
    (e : Nat) (o m r : String) :
    (build_core schema p e o m r).val ("Marital Status" ++ "_" ++ m) =
      if ("Marital Status" ++ "_" ++ m) ∈ schema then 1 else 0 := by
  obtain ⟨n1, n2, n3, n4, n5⟩ := actCol_ne_numeric "Marital Status" m 'M' (by decide)
    (by decide) (by decide) (by decide) (by decide) (by decide)
  have hOc : "Marital Status" ++ "_" ++ m ≠ "Occupation" ++ "_" ++ o :=
    actCol_ne_actCol _ _ _ _ 'M' 'O' (by decide) (by decide) (by decide)
  have hRc : "Marital Status" ++ "_" ++ m ≠ "Relationship" ++ "_" ++ r :=
    actCol_ne_actCol _ _ _ _ 'M' 'R' (by decide) (by decide) (by decide)
  have hGc : "Marital Status" ++ "_" ++ m ≠ "Gender_Male" :=
    actCol_ne_lit _ _ _ 'M' 'G' (by decide) (by decide) (by decide)
  have m1 : "Marital Status_" ++ m ≠ "Age" := n1
  have m2 : "Marital Status_" ++ m ≠ "EducationNum" := n2
  have m3 : "Marital Status_" ++ m ≠ "Hours per Week" := n3
  have m4 : "Marital Status_" ++ m ≠ "Capital Gain" := n4
  have m5 : "Marital Status_" ++ m ≠ "capital loss" := n5
  have mO : "Marital Status_" ++ m ≠ "Occupation_" ++ o := hOc
  by_cases hg : p.gender = "Male"
  · simp only [build_core, if_pos hg]
    rw [setCol_val, if_neg hGc, act_val_ne _ hRc, act_val_self, act_cols,
      act_val_ne _ hOc]
    simp only [numeric_chain_mem schema p e ("Marital Status" ++ "_" ++ m) n1 n2 n3 n4 n5]
    by_cases hs : ("Marital Status_" ++ m) ∈ schema
    · simp [hs]
    · simp [hs, setCol_val, m1, m2, m3, m4, m5, DataFrame.zeros]
  · simp only [build_core, if_neg hg]
    rw [act_val_ne _ hRc, act_val_self, act_cols, act_val_ne _ hOc]
    simp only [numeric_chain_mem schema p e ("Marital Status" ++ "_" ++ m) n1 n2 n3 n4 n5]
    by_cases hs : ("Marital Status_" ++ m) ∈ schema
    · simp [hs]
    · simp [hs, setCol_val, m1, m2, m3, m4, m5, DataFrame.zeros]

/-- Same as `build_core_val_occ`, for the relationship column. -/
lemma build_core_val_rel (schema : List String) (p : ProfileInput)
    (e : Nat) (o m r : String) :
    (build_core schema p e o m r).val ("Relationship" ++ "_" ++ r) =
      if ("Relationship" ++ "_" ++ r) ∈ schema then 1 else 0 := by
  obtain ⟨n1, n2, n3, n4, n5⟩ := actCol_ne_numeric "Relationship" r 'R' (by decide)
    (by decide) (by decide) (by decide) (by decide) (by decide)
  have hOc : "Relationship" ++ "_" ++ r ≠ "Occupation" ++ "_" ++ o :=
    actCol_ne_actCol _ _ _ _ 'R' 'O' (by decide) (by decide) (by decide)
  have hMc : "Relationship" ++ "_" ++ r ≠ "Marital Status" ++ "_" ++ m :=
    actCol_ne_actCol _ _ _ _ 'R' 'M' (by decide) (by decide) (by decide)
  have hGc : "Relationship" ++ "_" ++ r ≠ "Gender_Male" :=
    actCol_ne_lit _ _ _ 'R' 'G' (by decide) (by decide) (by decide)
  have m1 : "Relationship_" ++ r ≠ "Age" := n1
  have m2 : "Relationship_" ++ r ≠ "EducationNum" := n2
  have m3 : "Relationship_" ++ r ≠ "Hours per Week" := n3
  have m4 : "Relationship_" ++ r ≠ "Capital Gain" := n4
  have m5 : "Relationship_" ++ r ≠ "capital loss" := n5
  have mO : "Relationship_" ++ r ≠ "Occupation_" ++ o := hOc
  have mM : "Relationship_" ++ r ≠ "Marital Status_" ++ m := hMc
  by_cases hg : p.gender = "Male"
  · simp only [build_core, if_pos hg]
    rw [setCol_val, if_neg hGc, act_val_self, act_cols, act_cols,
      act_val_ne _ hMc, act_val_ne _ hOc]
    simp only [numeric_chain_mem schema p e ("Relationship" ++ "_" ++ r) n1 n2 n3 n4 n5]
    by_cases hs : ("Relationship_" ++ r) ∈ schema
    · simp [hs]
    · simp [hs, setCol_val, m1, m2, m3, m4, m5, DataFrame.zeros]
  · simp only [build_core, if_neg hg]
    rw [act_val_self, act_cols, act_cols, act_val_ne _ hMc, act_val_ne _ hOc]
    simp only [numeric_chain_mem schema p e ("Relationship" ++ "_" ++ r) n1 n2 n3 n4 n5]
    by_cases hs : ("Relationship_" ++ r) ∈ schema
    · simp [hs]
    · simp [hs, setCol_val, m1, m2, m3, m4, m5, DataFrame.zeros]

/-- The gender column is written unconditionally, with no schema check:
its value is 1 exactly when gender is "Male", for every schema. -/
lemma build_core_val_gender (schema : List String) (p : ProfileInput)
    (e : Nat) (o m r : String) :
    (build_core schema p e o m r).val "Gender_Male" =
      if p.gender = "Male" then 1 else 0 := by
  have hOc : "Gender_Male" ≠ "Occupation" ++ "_" ++ o :=
    (actCol_ne_lit _ _ _ 'O' 'G' (by decide) (by decide) (by decide)).symm
  have hMc : "Gender_Male" ≠ "Marital Status" ++ "_" ++ m :=
    (actCol_ne_lit _ _ _ 'M' 'G' (by decide) (by decide) (by decide)).symm
  have hRc : "Gender_Male" ≠ "Relationship" ++ "_" ++ r :=
    (actCol_ne_lit _ _ _ 'R' 'G' (by decide) (by decide) (by decide)).symm
  by_cases hg : p.gender = "Male"
  · simp only [build_core, if_pos hg]
    rw [setCol_val, if_pos rfl]
  · simp only [build_core, if_neg hg]
    rw [act_val_ne _ hRc, act_val_ne _ hMc, act_val_ne _ hOc]
    simp [setCol_val, DataFrame.zeros]

/-! ### Bridging `build_input` and `build_core` -/

lemma build_input_eq_some (schema : List String) (p : ProfileInput)
    (e : Nat) (o m r : String)
    (hE : EDUCATION_MAP.lookup p.education_label = some e)
    (hO : OCCUPATION_MAP.lookup p.occupation_label = some o)
    (hM : MARITAL_MAP.lookup p.marital_label = some m)
    (hR : RELATIONSHIP_MAP.lookup p.relationship_label = some r) :
    build_input schema p = some (build_core schema p e o m r) := by
  unfold build_input
  rw [hE, hO, hM, hR]
  rfl

lemma build_input_none_of_edu (schema : List String) (p : ProfileInput)
    (hE : EDUCATION_MAP.lookup p.education_label = none) :
    build_input schema p = none := by
  unfold build_input
  rw [hE]
  rfl

/-- Value of a fixed literal column whose first character differs from the
first characters of the three activation names and which is not the gender
column: only the numeric writes can reach it. -/
lemma build_core_val_lit (schema : List String) (p : ProfileInput)
    (e : Nat) (o m r : String) (t : String) (c : Char)
    (ht : t.data.head? = some c)
    (hO : c ≠ 'O') (hM : c ≠ 'M') (hR : c ≠ 'R') (hG : t ≠ "Gender_Male") :
    (build_core schema p e o m r).val t =
      if t = "capital loss" then p.capital_loss
      else if t = "Capital Gain" then p.capital_gain
      else if t = "Hours per Week" then p.hours
      else if t = "EducationNum" then e
      else if t = "Age" then p.age
      else 0 :=
  build_core_val schema p e o m r t
    (Ne.symm (actCol_ne_lit "Occupation" o t 'O' c (by decide) ht hO.symm))
    (Ne.symm (actCol_ne_lit "Marital Status" m t 'M' c (by decide) ht hM.symm))
    (Ne.symm (actCol_ne_lit "Relationship" r t 'R' c (by decide) ht hR.symm))
    (fun _ => hG)

/-- An occupation one-hot column other than the activated one stays 0. -/
lemma build_core_occ_other (schema : List String) (p : ProfileInput)
    (e : Nat) (o m r : String) (v : String) (hv : v ≠ o) :
    (build_core schema p e o m r).val ("Occupation" ++ "_" ++ v) = 0 := by
  obtain ⟨n1, n2, n3, n4, n5⟩ := actCol_ne_numeric "Occupation" v 'O' (by decide)
    (by decide) (by decide) (by decide) (by decide) (by decide)
  rw [build_core_val schema p e o m r _
    (fun h => hv (strcat_left_cancel (a := "Occupation" ++ "_") h))
    (actCol_ne_actCol _ _ _ _ 'O' 'M' (by decide) (by decide) (by decide))
    (actCol_ne_actCol _ _ _ _ 'O' 'R' (by decide) (by decide) (by decide))
    (fun _ => actCol_ne_lit _ _ _ 'O' 'G' (by decide) (by decide) (by decide))]
  have m1 : "Occupation_" ++ v ≠ "Age" := n1
  have m2 : "Occupation_" ++ v ≠ "EducationNum" := n2
  have m3 : "Occupation_" ++ v ≠ "Hours per Week" := n3
  have m4 : "Occupation_" ++ v ≠ "Capital Gain" := n4
  have m5 : "Occupation_" ++ v ≠ "capital loss" := n5
  simp [m1, m2, m3, m4, m5]

/-- A marital-status one-hot column other than the activated one stays 0. -/
lemma build_core_mar_other (schema : List String) (p : ProfileInput)
    (e : Nat) (o m r : String) (v : String) (hv : v ≠ m) :
    (build_core schema p e o m r).val ("Marital Status" ++ "_" ++ v) = 0 := by
  obtain ⟨n1, n2, n3, n4, n5⟩ := actCol_ne_numeric "Marital Status" v 'M' (by decide)
    (by decide) (by decide) (by decide) (by decide) (by decide)
  rw [build_core_val schema p e o m r _
    (actCol_ne_actCol _ _ _ _ 'M' 'O' (by decide) (by decide) (by decide))
    (fun h => hv (strcat_left_cancel (a := "Marital Status" ++ "_") h))
    (actCol_ne_actCol _ _ _ _ 'M' 'R' (by decide) (by decide) (by decide))
    (fun _ => actCol_ne_lit _ _ _ 'M' 'G' (by decide) (by decide) (by decide))]
  have m1 : "Marital Status_" ++ v ≠ "Age" := n1
  have m2 : "Marital Status_" ++ v ≠ "EducationNum" := n2
  have m3 : "Marital Status_" ++ v ≠ "Hours per Week" := n3
  have m4 : "Marital Status_" ++ v ≠ "Capital Gain" := n4
  have m5 : "Marital Status_" ++ v ≠ "capital loss" := n5
  simp [m1, m2, m3, m4, m5]

/-- A relationship one-hot column other than the activated one stays 0. -/
lemma build_core_rel_other (schema : List String) (p : ProfileInput)
    (e : Nat) (o m r : String) (v : String) (hv : v ≠ r) :
    (build_core schema p e o m r).val ("Relationship" ++ "_" ++ v) = 0 := by
  obtain ⟨n1, n2, n3, n4, n5⟩ := actCol_ne_numeric "Relationship" v 'R' (by decide)
    (by decide) (by decide) (by decide) (by decide) (by decide)
  rw [build_core_val schema p e o m r _
    (actCol_ne_actCol _ _ _ _ 'R' 'O' (by decide) (by decide) (by decide))
    (actCol_ne_actCol _ _ _ _ 'R' 'M' (by decide) (by decide) (by decide))
    (fun h => hv (strcat_left_cancel (a := "Relationship" ++ "_") h))
    (fun _ => actCol_ne_lit _ _ _ 'R' 'G' (by decide) (by decide) (by decide))]
  have m1 : "Relationship_" ++ v ≠ "Age" := n1
  have m2 : "Relationship_" ++ v ≠ "EducationNum" := n2
  have m3 : "Relationship_" ++ v ≠ "Hours per Week" := n3
  have m4 : "Relationship_" ++ v ≠ "Capital Gain" := n4
  have m5 : "Relationship_" ++ v ≠ "capital loss" := n5
  simp [m1, m2, m3, m4, m5]

/-- A gender one-hot column other than `Gender_Male` stays 0; with a
non-"Male" gender even `Gender_Male` stays 0. -/
lemma build_core_gender_other (schema : List String) (p : ProfileInput)
    (e : Nat) (o m r : String) (v : String) (hv : v ≠ "Male") :
    (build_core schema p e o m r).val ("Gender" ++ "_" ++ v) = 0 := by
  obtain ⟨n1, n2, n3, n4, n5⟩ := actCol_ne_numeric "Gender" v 'G' (by decide)
    (by decide) (by decide) (by decide) (by decide) (by decide)
  rw [build_core_val schema p e o m r _
    (actCol_ne_actCol _ _ _ _ 'G' 'O' (by decide) (by decide) (by decide))
    (actCol_ne_actCol _ _ _ _ 'G' 'M' (by decide) (by decide) (by decide))
    (actCol_ne_actCol _ _ _ _ 'G' 'R' (by decide) (by decide) (by decide))
    (fun _ h => hv (gender_col_eq_iff h))]
  have m1 : "Gender_" ++ v ≠ "Age" := n1
  have m2 : "Gender_" ++ v ≠ "EducationNum" := n2
  have m3 : "Gender_" ++ v ≠ "Hours per Week" := n3
  have m4 : "Gender_" ++ v ≠ "Capital Gain" := n4
  have m5 : "Gender_" ++ v ≠ "capital loss" := n5
  simp [m1, m2, m3, m4, m5]

/-! ### Concrete sample schemas and inputs used to instantiate theorems -/

/-- A schema containing just the five numeric columns. -/
def csNum : List String :=
  ["Age", "EducationNum", "Hours per Week", "Capital Gain", "capital loss"]

/-- A schema with the numeric columns, some one-hot columns and the gender
column. -/
def csFull : List String :=
  csNum ++ ["Occupation_Tech-support", "Occupation_Sales",
            "Marital Status_Never-married", "Relationship_Husband",
            "Gender_Male"]

/-- A schema that also has the two capital indicator columns. -/
def csInd : List String :=
  csNum ++ ["Has_Capital_Gain", "Has_Capital_Loss", "Gender_Male"]

/-- A valid male profile, all labels drawn from the selectbox options. -/
def pMale : ProfileInput :=
  ⟨35, "Sarjana (S1)", "Male", "Teknisi / IT Support", "Belum Menikah",
   "Suami", 40, 0, 0⟩

/-- A valid female profile. -/
def pFemale : ProfileInput :=
  ⟨30, "SMA", "Female", "Penjualan", "Menikah", "Istri", 38, 0, 100⟩

/-- A valid profile whose occupation maps to "Unknown". -/
def pUnknownOcc : ProfileInput :=
  ⟨40, "SD", "Female", "Lainnya", "Cerai/Pisah", "Anak", 20, 0, 0⟩

/-- A profile whose education label is not a key of EDUCATION_MAP. -/
def pBadEdu : ProfileInput :=
  ⟨35, "SMK", "Male", "Teknisi / IT Support", "Belum Menikah", "Suami",
   40, 0, 0⟩

/-- A valid male profile with positive capital gain. -/
def pGain : ProfileInput :=
  ⟨35, "Sarjana (S1)", "Male", "Teknisi / IT Support", "Belum Menikah",
   "Suami", 40, 5000, 0⟩

/-! ### Claims -/

/-- C1, counterexample: with a schema holding exactly the five numeric
columns and gender = "Male", the encoder appends a sixth column
"Gender_Male" that is not in the schema, so the output column set is not
the schema's column set.  The claim "the Encoded Feature Vector has exactly
the same column set as the Feature Schema ... for all selectable input
combinations, including gender = Male" is therefore false as stated. -/
theorem c1_counterexample :
    (build_input csNum pMale).map DataFrame.cols =
      some (csNum ++ ["Gender_Male"]) ∧ "Gender_Male" ∉ csNum := by
  constructor
  · decide
  · decide

/-- C1 (amended): the Encoded Feature Vector has exactly one row (structural
in the model), and its column set equals the Feature Schema provided the
schema contains the five unconditionally written numeric column names and,
when gender = "Male", the column "Gender_Male"; under those preconditions
every column the encoder writes to exists in the schema. -/
theorem c1_column_set_amended (schema : List String) (p : ProfileInput)
    (e : Nat) (o m r : String)
    (hE : EDUCATION_MAP.lookup p.education_label = some e)
    (hO : OCCUPATION_MAP.lookup p.occupation_label = some o)
    (hM : MARITAL_MAP.lookup p.marital_label = some m)
    (hR : RELATIONSHIP_MAP.lookup p.relationship_label = some r)
    (hA : "Age" ∈ schema) (hEd : "EducationNum" ∈ schema)
    (hH : "Hours per Week" ∈ schema) (hC : "Capital Gain" ∈ schema)
    (hc : "capital loss" ∈ schema)
    (hG : p.gender = "Male" → "Gender_Male" ∈ schema)
    (X : DataFrame) (hX : build_input schema p = some X) :
    X.cols = schema := by
  rw [build_input_eq_some schema p e o m r hE hO hM hR] at hX
  obtain rfl := Option.some.inj hX
  exact build_core_cols schema p e o m r hA hEd hH hC hc hG

/-- C1 witness: the amended theorem applied at a concrete valid male input
and a schema containing every written column. -/
theorem c1_column_set_amended_witness :
    (build_core csFull pMale 13 "Tech-support" "Never-married" "Husband").cols
      = csFull :=
  c1_column_set_amended csFull pMale 13 "Tech-support" "Never-married" "Husband"
    (by decide) (by decide) (by decide) (by decide)
    (by decide) (by decide) (by decide) (by decide) (by decide)
    (fun _ => by decide) _
    (build_input_eq_some csFull pMale 13 "Tech-support" "Never-married"
      "Husband" (by decide) (by decide) (by decide) (by decide))

/-- C2: each numeric field present in the schema is copied unchanged from
the raw input ("Age" = age, "Hours per Week" = hours, "Capital Gain" =
capital_gain, "capital loss" = capital_loss), and "EducationNum" equals the
EDUCATION_MAP lookup of the selected education label. -/
theorem c2_numeric_identity (schema : List String) (p : ProfileInput)
    (e : Nat) (o m r : String)
    (hE : EDUCATION_MAP.lookup p.education_label = some e)
    (hO : OCCUPATION_MAP.lookup p.occupation_label = some o)
    (hM : MARITAL_MAP.lookup p.marital_label = some m)
    (hR : RELATIONSHIP_MAP.lookup p.relationship_label = some r)
    (hA : "Age" ∈ schema) (hEd : "EducationNum" ∈ schema)
    (hH : "Hours per Week" ∈ schema) (hC : "Capital Gain" ∈ schema)
    (hc : "capital loss" ∈ schema)
    (X : DataFrame) (hX : build_input schema p = some X) :
    X.val "Age" = p.age ∧ X.val "Hours per Week" = p.hours ∧
    X.val "Capital Gain" = p.capital_gain ∧
    X.val "capital loss" = p.capital_loss ∧ X.val "EducationNum" = e := by
  rw [build_input_eq_some schema p e o m r hE hO hM hR] at hX
  obtain rfl := Option.some.inj hX
  refine ⟨?_, ?_, ?_, ?_, ?_⟩
  · rw [build_core_val_lit schema p e o m r "Age" 'A' (by decide)
      (by decide) (by decide) (by decide) (by decide)]
    simp
  · rw [build_core_val_lit schema p e o m r "Hours per Week" 'H' (by decide)
      (by decide) (by decide) (by decide) (by decide)]
    simp
  · rw [build_core_val_lit schema p e o m r "Capital Gain" 'C' (by decide)
      (by decide) (by decide) (by decide) (by decide)]
    simp
  · rw [build_core_val_lit schema p e o m r "capital loss" 'c' (by decide)
      (by decide) (by decide) (by decide) (by decide)]
    simp
  · rw [build_core_val_lit schema p e o m r "EducationNum" 'E' (by decide)
      (by decide) (by decide) (by decide) (by decide)]
    simp

/-- C2 witness: the numeric identities at a concrete valid input. -/
theorem c2_numeric_identity_witness :
    (build_core csFull pMale 13 "Tech-support" "Never-married" "Husband").val
        "Age" = pMale.age ∧
    (build_core csFull pMale 13 "Tech-support" "Never-married" "Husband").val
        "Hours per Week" = pMale.hours ∧
    (build_core csFull pMale 13 "Tech-support" "Never-married" "Husband").val
        "Capital Gain" = pMale.capital_gain ∧
    (build_core csFull pMale 13 "Tech-support" "Never-married" "Husband").val
        "capital loss" = pMale.capital_loss ∧
    (build_core csFull pMale 13 "Tech-support" "Never-married" "Husband").val
        "EducationNum" = 13 :=
  c2_numeric_identity csFull pMale 13 "Tech-support" "Never-married" "Husband"
    (by decide) (by decide) (by decide) (by decide)
    (by decide) (by decide) (by decide) (by decide) (by decide) _
    (build_input_eq_some csFull pMale 13 "Tech-support" "Never-married"
      "Husband" (by decide) (by decide) (by decide) (by decide))

/-- C3: for every categorical attribute (occupation, marital status,
relationship, gender), at most one one-hot column of that attribute is 1:
every column of the attribute other than the activated
`"{Prefix}_{Value}"` is 0, and the activated one is at most 1. -/
theorem c3_one_hot_at_most_one (schema : List String) (p : ProfileInput)
    (e : Nat) (o m r : String)
    (hE : EDUCATION_MAP.lookup p.education_label = some e)
    (hO : OCCUPATION_MAP.lookup p.occupation_label = some o)
    (hM : MARITAL_MAP.lookup p.marital_label = some m)
    (hR : RELATIONSHIP_MAP.lookup p.relationship_label = some r)
    (X : DataFrame) (hX : build_input schema p = some X) :
    ((∀ v, v ≠ o → X.val ("Occupation" ++ "_" ++ v) = 0) ∧
      X.val ("Occupation" ++ "_" ++ o) ≤ 1) ∧
    ((∀ v, v ≠ m → X.val ("Marital Status" ++ "_" ++ v) = 0) ∧
      X.val ("Marital Status" ++ "_" ++ m) ≤ 1) ∧
    ((∀ v, v ≠ r → X.val ("Relationship" ++ "_" ++ v) = 0) ∧
      X.val ("Relationship" ++ "_" ++ r) ≤ 1) ∧
    ((∀ v, v ≠ "Male" → X.val ("Gender" ++ "_" ++ v) = 0) ∧
      X.val "Gender_Male" ≤ 1) := by
  rw [build_input_eq_some schema p e o m r hE hO hM hR] at hX
  obtain rfl := Option.some.inj hX
  refine ⟨⟨fun v hv => build_core_occ_other schema p e o m r v hv, ?_⟩,
    ⟨fun v hv => build_core_mar_other schema p e o m r v hv, ?_⟩,
    ⟨fun v hv => build_core_rel_other schema p e o m r v hv, ?_⟩,
    ⟨fun v hv => build_core_gender_other schema p e o m r v hv, ?_⟩⟩
  · rw [build_core_val_occ]; split <;> simp
  · rw [build_core_val_mar]; split <;> simp
  · rw [build_core_val_rel]; split <;> simp
  · rw [build_core_val_gender]; split <;> simp

/-- C3 witness: at a concrete input, a non-selected occupation column is 0
and the selected one is at most 1. -/
theorem c3_one_hot_at_most_one_witness :
    (build_core csFull pMale 13 "Tech-support" "Never-married" "Husband").val
        ("Occupation" ++ "_" ++ "Sales") = 0 ∧
    (build_core csFull pMale 13 "Tech-support" "Never-married" "Husband").val
        ("Occupation" ++ "_" ++ "Tech-support") ≤ 1 :=
  ⟨(c3_one_hot_at_most_one csFull pMale 13 "Tech-support" "Never-married"
      "Husband" (by decide) (by decide) (by decide) (by decide) _
      (build_input_eq_some csFull pMale 13 "Tech-support" "Never-married"
        "Husband" (by decide) (by decide) (by decide) (by decide))).1.1
    "Sales" (by decide),
   (c3_one_hot_at_most_one csFull pMale 13 "Tech-support" "Never-married"
      "Husband" (by decide) (by decide) (by decide) (by decide) _
      (build_input_eq_some csFull pMale 13 "Tech-support" "Never-married"
        "Husband" (by decide) (by decide) (by decide) (by decide))).1.2⟩

/-- C6: for every categorical attribute encoded through `act` (occupation,
marital status, relationship), when the concatenated one-hot name
`"{Prefix}_{Value}"` of the selected value is not a schema column, the
encoder completes normally (no error is raised) and sets no column of that
attribute to 1: every column of that attribute reads 0.  (Gender does not
go through `act`: line 95 writes `Gender_Male` with no membership check,
the subject of C1's counterexample and C9.) -/
theorem c6_unrecognized_silent (schema : List String) (p : ProfileInput)
    (e : Nat) (o m r : String)
    (hE : EDUCATION_MAP.lookup p.education_label = some e)
    (hO : OCCUPATION_MAP.lookup p.occupation_label = some o)
    (hM : MARITAL_MAP.lookup p.marital_label = some m)
    (hR : RELATIONSHIP_MAP.lookup p.relationship_label = some r) :
    (build_input schema p).isSome = true ∧
    (∀ X, build_input schema p = some X →
      ((("Occupation" ++ "_" ++ o) ∉ schema →
        ∀ v, X.val ("Occupation" ++ "_" ++ v) = 0) ∧
       (("Marital Status" ++ "_" ++ m) ∉ schema →
        ∀ v, X.val ("Marital Status" ++ "_" ++ v) = 0) ∧
       (("Relationship" ++ "_" ++ r) ∉ schema →
        ∀ v, X.val ("Relationship" ++ "_" ++ v) = 0))) := by
  have hb := build_input_eq_some schema p e o m r hE hO hM hR
  constructor
  · rw [hb]; rfl
  · intro X hX
    rw [hb] at hX
    obtain rfl := Option.some.inj hX
    refine ⟨fun hcol v => ?_, fun hcol v => ?_, fun hcol v => ?_⟩
    · by_cases hv : v = o
      · subst hv
        rw [build_core_val_occ]
        exact if_neg hcol
      · exact build_core_occ_other schema p e o m r v hv
    · by_cases hv : v = m
      · subst hv
        rw [build_core_val_mar]
        exact if_neg hcol
      · exact build_core_mar_other schema p e o m r v hv
    · by_cases hv : v = r
      · subst hv
        rw [build_core_val_rel]
        exact if_neg hcol
      · exact build_core_rel_other schema p e o m r v hv

/-- C6 witness: for pUnknownOcc none of "Occupation_Unknown",
"Marital Status_Divorced", "Relationship_Own-child" is a csFull column;
encoding succeeds and each of the three attributes' columns reads 0. -/
theorem c6_unrecognized_silent_witness :
    (build_input csFull pUnknownOcc).isSome = true ∧
    (build_core csFull pUnknownOcc 3 "Unknown" "Divorced" "Own-child").val
        ("Occupation" ++ "_" ++ "Unknown") = 0 ∧
    (build_core csFull pUnknownOcc 3 "Unknown" "Divorced" "Own-child").val
        ("Marital Status" ++ "_" ++ "Divorced") = 0 ∧
    (build_core csFull pUnknownOcc 3 "Unknown" "Divorced" "Own-child").val
        ("Relationship" ++ "_" ++ "Own-child") = 0 :=
  ⟨(c6_unrecognized_silent csFull pUnknownOcc 3 "Unknown" "Divorced"
      "Own-child" (by decide) (by decide) (by decide) (by decide)).1,
   ((c6_unrecognized_silent csFull pUnknownOcc 3 "Unknown" "Divorced"
      "Own-child" (by decide) (by decide) (by decide) (by decide)).2 _
     (build_input_eq_some csFull pUnknownOcc 3 "Unknown" "Divorced"
       "Own-child" (by decide) (by decide) (by decide) (by decide))).1
     (by decide) "Unknown",
   ((c6_unrecognized_silent csFull pUnknownOcc 3 "Unknown" "Divorced"
      "Own-child" (by decide) (by decide) (by decide) (by decide)).2 _
     (build_input_eq_some csFull pUnknownOcc 3 "Unknown" "Divorced"
       "Own-child" (by decide) (by decide) (by decide) (by decide))).2.1
     (by decide) "Divorced",
   ((c6_unrecognized_silent csFull pUnknownOcc 3 "Unknown" "Divorced"
      "Own-child" (by decide) (by decide) (by decide) (by decide)).2 _
     (build_input_eq_some csFull pUnknownOcc 3 "Unknown" "Divorced"
       "Own-child" (by decide) (by decide) (by decide) (by decide))).2.2
     (by decide) "Own-child"⟩

/-- C9: gender is encoded asymmetrically.  When gender = "Female" no gender
column is written (every "Gender_*" column reads 0); when gender = "Male"
the encoder sets "Gender_Male" to 1 unconditionally, with no
schema-membership check: the value is 1 and the column is present in the
output for every schema, even one not containing "Gender_Male". -/
theorem c9_gender_asymmetry (schema : List String) (p : ProfileInput)
    (e : Nat) (o m r : String)
    (hE : EDUCATION_MAP.lookup p.education_label = some e)
    (hO : OCCUPATION_MAP.lookup p.occupation_label = some o)
    (hM : MARITAL_MAP.lookup p.marital_label = some m)
    (hR : RELATIONSHIP_MAP.lookup p.relationship_label = some r)
    (X : DataFrame) (hX : build_input schema p = some X) :
    (p.gender = "Female" → ∀ v, X.val ("Gender" ++ "_" ++ v) = 0) ∧
    (p.gender = "Male" → X.val "Gender_Male" = 1 ∧ "Gender_Male" ∈ X.cols) := by
  rw [build_input_eq_some schema p e o m r hE hO hM hR] at hX
  obtain rfl := Option.some.inj hX
  constructor
  · intro hF v
    by_cases hv : v = "Male"
    · subst hv
      have hcol : ("Gender" ++ "_" ++ "Male") = "Gender_Male" := by decide
      have hg : p.gender ≠ "Male" := by rw [hF]; decide
      rw [hcol, build_core_val_gender]
      exact if_neg hg
    · exact build_core_gender_other schema p e o m r v hv
  · intro hMale
    constructor
    · rw [build_core_val_gender, if_pos hMale]
    · simp only [build_core, if_pos hMale]
      exact self_mem_setCol_cols _ _ _

/-- C9 witness: a female input leaves "Gender_Male" at 0; a male input sets
it to 1 and appends the column even though csNum does not contain it. -/
theorem c9_gender_asymmetry_witness :
    (build_core csNum pFemale 9 "Sales" "Married-civ-spouse" "Wife").val
        ("Gender" ++ "_" ++ "Male") = 0 ∧
    ((build_core csNum pMale 13 "Tech-support" "Never-married" "Husband").val
        "Gender_Male" = 1 ∧
      "Gender_Male" ∈ (build_core csNum pMale 13 "Tech-support"
        "Never-married" "Husband").cols) :=
  ⟨(c9_gender_asymmetry csNum pFemale 9 "Sales" "Married-civ-spouse" "Wife"
      (by decide) (by decide) (by decide) (by decide) _
      (build_input_eq_some csNum pFemale 9 "Sales" "Married-civ-spouse"
        "Wife" (by decide) (by decide) (by decide) (by decide))).1
    rfl "Male",
   (c9_gender_asymmetry csNum pMale 13 "Tech-support" "Never-married"
      "Husband" (by decide) (by decide) (by decide) (by decide) _
      (build_input_eq_some csNum pMale 13 "Tech-support" "Never-married"
        "Husband" (by decide) (by decide) (by decide) (by decide))).2
    rfl⟩

/-- C10: the education lookup table has exactly nine entries; an education
label outside its domain makes the encoder fail (the KeyError branch),
whatever the other labels; and when all four labels are in their tables'
domains the encoder succeeds, so under the precondition that the selected
education label is one of the nine keys the failure branch is
unreachable. -/
theorem c10_education_totality (schema : List String) (p : ProfileInput) :
    EDUCATION_MAP.length = 9 ∧
    (EDUCATION_MAP.lookup p.education_label = none →
      build_input schema p = none) ∧
    (∀ e o m r,
      EDUCATION_MAP.lookup p.education_label = some e →
      OCCUPATION_MAP.lookup p.occupation_label = some o →
      MARITAL_MAP.lookup p.marital_label = some m →
      RELATIONSHIP_MAP.lookup p.relationship_label = some r →
      (build_input schema p).isSome = true) := by
  refine ⟨rfl, fun hE => build_input_none_of_edu schema p hE,
    fun e o m r hE hO hM hR => ?_⟩
  rw [build_input_eq_some schema p e o m r hE hO hM hR]
  rfl

/-- C10 witness: the label "SMK" is outside the table and the encoder
fails; the valid label "Sarjana (S1)" makes it succeed. -/
theorem c10_education_totality_witness :
    build_input csNum pBadEdu = none ∧
    (build_input csNum pMale).isSome = true :=
  ⟨(c10_education_totality csNum pBadEdu).2.1 (by decide),
   (c10_education_totality csNum pMale).2.2 13 "Tech-support" "Never-married"
     "Husband" (by decide) (by decide) (by decide) (by decide)⟩

/-! ### Evaluation lemmas for the prediction handler -/

lemma runPrediction_eq (f : DataFrame → Except String (Rat × Rat))
    (g : DataFrame → Except String (List Rat)) (X : DataFrame)
    (pr : Rat × Rat) (sv : List Rat)
    (hf : f X = Except.ok pr) (hg : g X = Except.ok sv) :
    runPrediction f g X = Except.ok
      ⟨if pr.2 > 1/2 then 1 else 0,
       if (if pr.2 > 1/2 then (1 : Nat) else 0) = 1 then pr.2 else 1 - pr.2,
       sv⟩ := by
  unfold runPrediction
  simp only [hf, hg]
  rfl

lemma runPrediction_err1 (f : DataFrame → Except String (Rat × Rat))
    (g : DataFrame → Except String (List Rat)) (X : DataFrame) (msg : String)
    (hf : f X = Except.error msg) :
    runPrediction f g X = Except.error msg := by
  unfold runPrediction
  simp only [hf]
  rfl

lemma runPrediction_err2 (f : DataFrame → Except String (Rat × Rat))
    (g : DataFrame → Except String (List Rat)) (X : DataFrame)
    (pr : Rat × Rat) (msg : String)
    (hf : f X = Except.ok pr) (hg : g X = Except.error msg) :
    runPrediction f g X = Except.error msg := by
  unfold runPrediction
  simp only [hf, hg]
  rfl

/-- An empty concrete frame fed to the handler in witnesses. -/
def dfW : DataFrame := DataFrame.zeros []

/-- A concrete classifier stub returning probabilities (0.3, 0.7). -/
def probaW : DataFrame → Except String (Rat × Rat) := fun _ => Except.ok (3/10, 7/10)

/-- A concrete attribution stub returning no contributions. -/
def shapW : DataFrame → Except String (List Rat) := fun _ => Except.ok []

/-- The display produced by the handler for `probaW` and `shapW`. -/
def outW : PredictionDisplay := ⟨1, 7/10, []⟩

/-- C4: the handler assigns predicted class 1 exactly when the second entry
of the probability pair returned by the classifier is strictly greater than
0.5, and class 0 otherwise. -/
theorem c4_threshold (f : DataFrame → Except String (Rat × Rat))
    (g : DataFrame → Except String (List Rat)) (X : DataFrame)
    (pr : Rat × Rat) (sv : List Rat) (out : PredictionDisplay)
    (hf : f X = Except.ok pr) (hg : g X = Except.ok sv)
    (hout : runPrediction f g X = Except.ok out) :
    (out.pred = 1 ↔ pr.2 > 1/2) ∧ (out.pred = 0 ↔ ¬ pr.2 > 1/2) := by
  rw [runPrediction_eq f g X pr sv hf hg] at hout
  obtain rfl := Except.ok.inj hout
  by_cases hp : pr.2 > 1/2
  · simp [hp]
  · simp [hp]

/-- C4 witness: with probability 0.7 the handler predicts class 1. -/
theorem c4_threshold_witness :
    (outW.pred = 1 ↔ (((3 : Rat)/10, (7 : Rat)/10)).2 > 1/2) ∧
    (outW.pred = 0 ↔ ¬ (((3 : Rat)/10, (7 : Rat)/10)).2 > 1/2) :=
  c4_threshold probaW shapW dfW (3/10, 7/10) [] outW rfl rfl
    (by rw [runPrediction_eq probaW shapW dfW (3/10, 7/10) [] rfl rfl]
        norm_num [outW])

/-- C5: the displayed confidence equals the class-1 probability when the
predicted class is 1 and its complement when the predicted class is 0, and
it lies in [0, 1] whenever the probability does. -/
theorem c5_confidence (f : DataFrame → Except String (Rat × Rat))
    (g : DataFrame → Except String (List Rat)) (X : DataFrame)
    (pr : Rat × Rat) (sv : List Rat) (out : PredictionDisplay)
    (hf : f X = Except.ok pr) (hg : g X = Except.ok sv)
    (hout : runPrediction f g X = Except.ok out)
    (h0 : 0 ≤ pr.2) (h1 : pr.2 ≤ 1) :
    out.conf = (if out.pred = 1 then pr.2 else 1 - pr.2) ∧
    0 ≤ out.conf ∧ out.conf ≤ 1 := by
  rw [runPrediction_eq f g X pr sv hf hg] at hout
  obtain rfl := Except.ok.inj hout
  refine ⟨rfl, ?_, ?_⟩
  · by_cases hp : pr.2 > 1/2
    · show 0 ≤ (if (if pr.2 > 1/2 then (1 : Nat) else 0) = 1
        then pr.2 else 1 - pr.2)
      rw [if_pos hp, if_pos rfl]
      exact h0
    · show 0 ≤ (if (if pr.2 > 1/2 then (1 : Nat) else 0) = 1
        then pr.2 else 1 - pr.2)
      rw [if_neg hp, if_neg (by decide : ¬ (0 : Nat) = 1)]
      linarith
  · by_cases hp : pr.2 > 1/2
    · show (if (if pr.2 > 1/2 then (1 : Nat) else 0) = 1
        then pr.2 else 1 - pr.2) ≤ 1
      rw [if_pos hp, if_pos rfl]
      exact h1
    · show (if (if pr.2 > 1/2 then (1 : Nat) else 0) = 1
        then pr.2 else 1 - pr.2) ≤ 1
      rw [if_neg hp, if_neg (by decide : ¬ (0 : Nat) = 1)]
      linarith

/-- C5 witness: with probability 0.7 the displayed confidence is 0.7 and it
lies in [0, 1]. -/
theorem c5_confidence_witness :
    outW.conf = (if outW.pred = 1 then (((3 : Rat)/10, (7 : Rat)/10)).2
      else 1 - (((3 : Rat)/10, (7 : Rat)/10)).2) ∧
    0 ≤ outW.conf ∧ outW.conf ≤ 1 :=
  c5_confidence probaW shapW dfW (3/10, 7/10) [] outW rfl rfl
    (by rw [runPrediction_eq probaW shapW dfW (3/10, 7/10) [] rfl rfl]
        norm_num [outW])
    (by norm_num) (by norm_num)

/-- C7, counterexample: with capital_gain = 5000 and a schema containing
"Has_Capital_Gain", the encoded value of that column is 0, not 1: this
variant's encoder never derives the capital indicator fields, so the
claimed biconditional "Has_Capital_Gain = 1 iff capital_gain > 0" fails. -/
theorem c7_counterexample :
    pGain.capital_gain = 5000 ∧ "Has_Capital_Gain" ∈ csInd ∧
    (build_input csInd pGain).map (fun X => X.val "Has_Capital_Gain") =
      some 0 := by
  refine ⟨rfl, by decide, by decide⟩

/-- C7 (amended): the encoder of this variant never writes
"Has_Capital_Gain" or "Has_Capital_Loss"; when those columns are present in
the schema they remain 0 for every input, whatever capital gain and loss
are. -/
theorem c7_indicators_amended (schema : List String) (p : ProfileInput)
    (e : Nat) (o m r : String)
    (hE : EDUCATION_MAP.lookup p.education_label = some e)
    (hO : OCCUPATION_MAP.lookup p.occupation_label = some o)
    (hM : MARITAL_MAP.lookup p.marital_label = some m)
    (hR : RELATIONSHIP_MAP.lookup p.relationship_label = some r)
    (hg : "Has_Capital_Gain" ∈ schema) (hl : "Has_Capital_Loss" ∈ schema)
    (X : DataFrame) (hX : build_input schema p = some X) :
    X.val "Has_Capital_Gain" = 0 ∧ X.val "Has_Capital_Loss" = 0 := by
  rw [build_input_eq_some schema p e o m r hE hO hM hR] at hX
  obtain rfl := Option.some.inj hX
  constructor
  · rw [build_core_val_lit schema p e o m r "Has_Capital_Gain" 'H'
      (by decide) (by decide) (by decide) (by decide) (by decide)]
    simp
  · rw [build_core_val_lit schema p e o m r "Has_Capital_Loss" 'H'
      (by decide) (by decide) (by decide) (by decide) (by decide)]
    simp

/-- C7 witness: the amended theorem at the concrete gain input. -/
theorem c7_indicators_amended_witness :
    (build_core csInd pGain 13 "Tech-support" "Never-married" "Husband").val
        "Has_Capital_Gain" = 0 ∧
    (build_core csInd pGain 13 "Tech-support" "Never-married" "Husband").val
        "Has_Capital_Loss" = 0 :=
  c7_indicators_amended csInd pGain 13 "Tech-support" "Never-married"
    "Husband" (by decide) (by decide) (by decide) (by decide)
    (by decide) (by decide) _
    (build_input_eq_some csInd pGain 13 "Tech-support" "Never-married"
      "Husband" (by decide) (by decide) (by decide) (by decide))

/-- C8, counterexample: the prediction handler has no try/except; a
classifier failure propagates out of the handler unchanged instead of being
caught and converted into a user-visible error message (an `Except.ok`
display), so the claim that every exception is caught at the handler's
outermost scope is false. -/
theorem c8_counterexample :
    runPrediction (fun _ => Except.error "model failure")
      (fun _ => Except.ok []) (DataFrame.zeros []) =
      Except.error "model failure" := rfl

/-- C8 (amended): the handler catches nothing: a failure of the classifier
call, or of the attribution call after a successful classifier call,
propagates out of `runPrediction` with its message unchanged; no exception
is converted into a rendered message by the handler itself. -/
theorem c8_no_catch_amended (f : DataFrame → Except String (Rat × Rat))
    (g : DataFrame → Except String (List Rat)) (X : DataFrame)
    (msg : String) :
    (f X = Except.error msg → runPrediction f g X = Except.error msg) ∧
    (∀ pr, f X = Except.ok pr → g X = Except.error msg →
      runPrediction f g X = Except.error msg) :=
  ⟨fun hf => runPrediction_err1 f g X msg hf,
   fun pr hf hg => runPrediction_err2 f g X pr msg hf hg⟩

/-- C8 witness: a classifier failure and an attribution failure each escape
the handler at concrete inputs. -/
theorem c8_no_catch_amended_witness :
    runPrediction (fun _ => Except.error "boom") shapW dfW =
      Except.error "boom" ∧
    runPrediction probaW (fun _ => Except.error "shap failure") dfW =
      Except.error "shap failure" :=
  ⟨(c8_no_catch_amended (fun _ => Except.error "boom") shapW dfW "boom").1
     rfl,
   (c8_no_catch_amended probaW (fun _ => Except.error "shap failure") dfW
     "shap failure").2 (3/10, 7/10) rfl rfl⟩
